import Mathlib

/-!
Shallow embedding of the turn-based simulation core of `tile_rpg_1`
(`src/main.rs`, `src/components.rs`, `src/data_read/beings.rs`), together with
the theorems settling the specification claims about it.

Conventions: Rust `usize` values are modelled as `Nat` (the program's maps are
40×27 tiles, far from any word-size boundary), except where a claim is about
cast/overflow behaviour, in which case the wrap modulo `2^64` is modelled
explicitly.  Rust `i32` values are modelled as `Int`.  `Duration` values are
modelled as `Nat` (an abstract count of time units).  Fallible Rust code
returns `Option`/an outcome sum type; a reachable `panic!` is a distinct
outcome constructor.

Several modules referenced by `main.rs` (`mining.rs`, `monster.rs`,
`player.rs`, `indexing.rs`, `items.rs`, `z_order.rs`) are not part of the
source snapshot; definitions taken from those modules are modelled from the
specification's words and say so in their doc comment.
-/

namespace TileRpg

/-- The `bracket_terminal` `Point`: a pair of signed (`i32`) coordinates,
modelled with `Int` coordinates. -/
structure Point where
  x : Int
  y : Int
deriving DecidableEq, Repr

def Point.new (x y : Int) : Point := ⟨x, y⟩

/-- The Rust `usize` cast applied to a signed value: `v as usize` sign-extends
and reinterprets, i.e. it wraps modulo `2^64` (it never panics). -/
def intAsUsize (v : Int) : Nat := (v % (2 ^ 64 : Int)).toNat

/-- `components.rs`: `Position { x: usize, y: usize }` — a tile coordinate.
Coordinates are non-negative by construction (`Nat`). -/
structure Position where
  x : Nat
  y : Nat
deriving DecidableEq, Repr

def Position.new (x y : Nat) : Position := ⟨x, y⟩

/-- `components.rs` `Position::to_idx`: `self.y * width + self.x` in `usize`
arithmetic, which wraps modulo `2^64` on overflow (release builds; debug
builds panic there instead, so past `2^64` the program in no build mode
produces the mathematical index). -/
def Position.to_idx (p : Position) (width : Nat) : Nat :=
  (p.y * width + p.x) % 2 ^ 64

/-- Modelled from the spec: `idx_to_point` lives in `src/indexing.rs`, which is
absent from the snapshot.  The spec says `Position` is "convertible to/from a
linear tile index given map width", so the point recovered from index `idx` is
`(idx mod width, idx div width)`. -/
def idx_to_point (idx width : Nat) : Point :=
  ⟨(idx % width : Nat), (idx / width : Nat)⟩

/-- `components.rs` `impl From<Point> for Position`: both coordinates go
through the unguarded `as usize` cast. -/
def Position.fromPoint (value : Point) : Position :=
  Position.new (intAsUsize value.x) (intAsUsize value.y)

/-- `components.rs` `Position::from_idx`: `idx_to_point(idx, width).into()`. -/
def Position.from_idx (idx width : Nat) : Position :=
  Position.fromPoint (idx_to_point idx width)

/-- `components.rs` `Position::to_point`. -/
def Position.to_point (p : Position) : Point :=
  Point.new p.x p.y

/-- `components.rs` `HealthStats { hp, max_hp, defense }` (all `usize`). -/
structure HealthStats where
  hp : Nat
  max_hp : Nat
  defense : Nat
deriving DecidableEq, Repr

/-- `components.rs` `HealthStats::new(max_hp, defense)`: starts at full HP. -/
def HealthStats.new (max_hp defense : Nat) : HealthStats :=
  { hp := max_hp, max_hp := max_hp, defense := defense }

/-- `components.rs` `SufferDamage { amount: Vec<i32> }`: the queue of pending
damage amounts accumulated on an entity during a turn. -/
structure SufferDamage where
  amount : List Int
deriving DecidableEq, Repr

/-- Modelled from the spec: `DamageSystem` lives in `src/mining.rs`, which is
absent from the snapshot.  Per spec §4.5 it runs once per turn per target,
"subtracts defense from each component amount (floored at zero) before
summing, subtracts the total from current HP (floored at zero)"; each queued
amount is consumed exactly once (the queue is dropped afterwards). -/
def run_damage_system (stats : HealthStats) (dmg : SufferDamage) : HealthStats :=
  let total : Int :=
    dmg.amount.foldl (fun acc amt => acc + max 0 (amt - (stats.defense : Int))) 0
  { stats with hp := (max 0 ((stats.hp : Int) - total)).toNat }

/-- The per-amount effective damage of spec §8:
`effective_damage = max(0, amount - defense)`. -/
def effective_damage (defense : Nat) (amount : Int) : Int :=
  max 0 (amount - (defense : Int))

lemma foldl_add_eq_sum (l : List Int) (f : Int → Int) (init : Int) :
    l.foldl (fun acc amt => acc + f amt) init = init + (l.map f).sum := by
  induction l generalizing init with
  | nil => simp
  | cons a t ih =>
      simp only [List.foldl_cons, List.map_cons, List.sum_cons, ih]
      ring

lemma intAsUsize_natCast (n : Nat) (h : n < 2 ^ 64) : intAsUsize (n : Int) = n := by
  unfold intAsUsize
  rw [Int.emod_eq_of_lt (by positivity) (by exact_mod_cast h)]
  simp

/-- C7 counterexample: at `p = (0, 2^33)` with `width = 2^34` the hypothesis
`p.x < width` of the claim holds, but `to_idx` computes `2^33 * 2^34 = 2^67`
in `usize`, which wraps to 0, so the roundtrip returns `(0, 0) ≠ p` — the
claim fails as stated without a no-overflow bound. -/
theorem position_idx_roundtrip_fails_on_overflow :
    (Position.new 0 (2 ^ 33)).x < 2 ^ 34 ∧
    Position.from_idx ((Position.new 0 (2 ^ 33)).to_idx (2 ^ 34)) (2 ^ 34)
      ≠ Position.new 0 (2 ^ 33) := by
  constructor
  · decide
  · intro h
    have hidx : (Position.new 0 (2 ^ 33)).to_idx (2 ^ 34) = 0 := by
      show (2 ^ 33 * 2 ^ 34 + 0) % 2 ^ 64 = 0
      norm_num [← pow_add, Nat.pow_mod]
    rw [hidx] at h
    have h0 : Position.from_idx 0 (2 ^ 34) = Position.new 0 0 := rfl
    rw [h0] at h
    have := congrArg Position.y h
    simp [Position.new] at this

/-- C7 (amended): Position is convertible to and from a linear tile index
given a map width: for every Position `p` with `p.x < width` whose linear
index `p.y * width + p.x` does not overflow `usize` (is below `2^64`),
`Position.from_idx (p.to_idx width) width = p`, and
`p.to_idx width = p.y * width + p.x`. -/
theorem position_idx_roundtrip (p : Position) (width : Nat) (h : p.x < width)
    (hidx : p.y * width + p.x < 2 ^ 64) :
    Position.from_idx (p.to_idx width) width = p ∧
    p.to_idx width = p.y * width + p.x := by
  have hw : 0 < width := Nat.lt_of_le_of_lt (Nat.zero_le _) h
  have hto : p.to_idx width = p.y * width + p.x :=
    Nat.mod_eq_of_lt hidx
  refine ⟨?_, hto⟩
  have hx64 : p.x < 2 ^ 64 :=
    Nat.lt_of_le_of_lt (Nat.le_add_left p.x (p.y * width)) hidx
  have hy64 : p.y < 2 ^ 64 :=
    Nat.lt_of_le_of_lt
      (Nat.le_trans (Nat.le_mul_of_pos_right p.y hw) (Nat.le_add_right _ p.x)) hidx
  have hmod : (p.y * width + p.x) % width = p.x := by
    rw [Nat.mul_comm p.y width, Nat.mul_add_mod, Nat.mod_eq_of_lt h]
  have hdiv : (p.y * width + p.x) / width = p.y := by
    rw [Nat.mul_comm p.y width, Nat.mul_add_div hw, Nat.div_eq_of_lt h, Nat.add_zero]
  simp only [Position.from_idx, hto, idx_to_point, Position.fromPoint,
    Position.new, hmod, hdiv, intAsUsize_natCast p.x hx64, intAsUsize_natCast p.y hy64]

/-- Witness for C7 (amended) at the concrete position (7, 3) with width 40. -/
theorem position_idx_roundtrip_witness :
    Position.from_idx ((Position.new 7 3).to_idx 40) 40 = Position.new 7 3 ∧
    (Position.new 7 3).to_idx 40 = 3 * 40 + 7 :=
  position_idx_roundtrip (Position.new 7 3) 40 (by decide) (by decide)

/-- C2: the single damage-resolution pass computes each effective damage as
`max(0, amount - defense)`, subtracts the sum from HP flooring at zero, and
applies each pending amount exactly once; in particular an entity with HP=10,
defense=2 receiving amounts [5, 3] ends the turn with HP=6. -/
theorem damage_resolution_correct :
    (∀ (stats : HealthStats) (pending : List Int),
      (run_damage_system stats ⟨pending⟩).hp
        = (max 0 ((stats.hp : Int)
            - (pending.map (effective_damage stats.defense)).sum)).toNat) ∧
    (run_damage_system (HealthStats.new 10 2) ⟨[5, 3]⟩).hp = 6 := by
  refine ⟨fun stats pending => ?_, by decide⟩
  show (max 0 ((stats.hp : Int)
      - pending.foldl (fun acc amt => acc + max 0 (amt - (stats.defense : Int))) 0)).toNat = _
  rw [foldl_add_eq_sum pending (fun amt => max 0 (amt - (stats.defense : Int))) 0, zero_add]
  rfl

/-- C8: Position coordinates are non-negative (they are `Nat` by construction),
and the unguarded `From<Point>` conversion preserves both coordinates exactly
for non-negative inputs (the bounds `2^31` encode the `i32` range of `Point`),
while on a negative coordinate it wraps modulo the word size instead of
producing the mathematical value. -/
theorem position_fromPoint_cast_behaviour :
    (∀ p : Point, 0 ≤ p.x → p.x < 2 ^ 31 → 0 ≤ p.y → p.y < 2 ^ 31 →
      ((Position.fromPoint p).x : Int) = p.x ∧ ((Position.fromPoint p).y : Int) = p.y) ∧
    ((Position.fromPoint (Point.new (-1) (-1))).x : Int) ≠ -1 := by
  constructor
  · intro p hx0 hx31 hy0 hy31
    have hcast : ∀ v : Int, 0 ≤ v → v < 2 ^ 31 → ((intAsUsize v : Nat) : Int) = v := by
      intro v h0 h31
      unfold intAsUsize
      rw [Int.emod_eq_of_lt h0 (lt_trans h31 (by norm_num))]
      exact Int.toNat_of_nonneg h0
    exact ⟨hcast p.x hx0 hx31, hcast p.y hy0 hy31⟩
  · intro hcontra
    have h0 : (0 : Int) ≤ ((Position.fromPoint (Point.new (-1) (-1))).x : Int) :=
      Int.natCast_nonneg _
    omega

/-- Witness for C8 at the concrete point (5, 7). -/
theorem position_fromPoint_cast_behaviour_witness :
    ((Position.fromPoint (Point.new 5 7)).x : Int) = 5 ∧
    ((Position.fromPoint (Point.new 5 7)).y : Int) = 7 :=
  position_fromPoint_cast_behaviour.1 (Point.new 5 7)
    (by decide) (by decide) (by decide) (by decide)

/-! ## Turn scheduler (`main.rs`)

The ECS state visible to the scheduler is reduced to what the claims inspect:
the set of entities carrying the one-shot `FinishedActivity` marker, the
player entity, and the `AppState` resource.  The effect of the systems from
modules absent from the snapshot on the `FinishedActivity` storage is passed
in as explicit functions (`cont` for `run_continuous_systems`, `resp` for
`run_response_systems`); durations are abstract `Nat` time units. -/

/-- `main.rs` `AppState`: `InMenu`, `InGame`,
`ActivityBound { response_delay: Duration }`. -/
inductive AppState where
  | InMenu : AppState
  | InGame : AppState
  | ActivityBound (response_delay : Nat) : AppState
deriving DecidableEq, Repr

/-- `main.rs` `AppState::activity_bound()`: `ActivityBound` with zero delay. -/
def AppState.activity_bound : AppState :=
  AppState.ActivityBound 0

/-- `player.rs` `PlayerResponse` (module absent; the three variants are used
in `main.rs` lines 143–151). -/
inductive PlayerResponse where
  | Waiting : PlayerResponse
  | TurnAdvance : PlayerResponse
  | StateChange (delta_state : AppState) : PlayerResponse

/-- Modelled from the spec: `check_player_activity` lives in `src/player.rs`,
which is absent from the snapshot.  Per spec §4.1 the scheduler leaves
`ActivityBound` when "the player's bound activity reports finished (via the
Finished-Activity signal path)", so it reports whether the player entity
carries the `FinishedActivity` marker. -/
def check_player_activity (player : Nat) (finished : List Nat) : Bool :=
  finished.contains player

/-- Modelled from the spec: `check_monster_delay` lives in `src/monster.rs`,
which is absent from the snapshot.  Per spec §4.1: "if an accumulated delay
timer exceeds an NPC response threshold" it reports due (the caller resets the
delay); "else accumulate elapsed real time into the delay".  It returns the
verdict together with the delay it wrote back through `&mut`. -/
def check_monster_delay (threshold delta delay : Nat) : Bool × Nat :=
  if threshold < delay then (true, delay) else (false, delay + delta)

/-- The scheduler-visible ECS state. -/
structure Ecs where
  player : Nat
  finished : List Nat
  state : AppState

/-- `main.rs` `State::run_eof_systems`: unconditionally clears the
`FinishedActivity` storage. -/
def run_eof_systems (_finished : List Nat) : List Nat :=
  []

/-- The `AppState::InGame` arm of `main.rs` `GameState::tick` (lines 140–156),
restricted to the scheduler-visible state: consult `manage_player_input`
(outcome `input`), run the response systems exactly on `TurnAdvance`, then the
continuous systems, then the end-of-frame pass.  Returns the post-tick state
paired with the number of times the response systems ran. -/
def tick_in_game_arm (cont resp : List Nat → List Nat) (input : PlayerResponse)
    (e : Ecs) : Ecs × Nat :=
  let (st, f1, runs) :=
    match input with
    | PlayerResponse.Waiting => (AppState.InGame, e.finished, 0)
    | PlayerResponse.TurnAdvance => (AppState.InGame, resp e.finished, 1)
    | PlayerResponse.StateChange delta_state => (delta_state, e.finished, 0)
  let f2 := cont f1
  ({ e with state := st, finished := run_eof_systems f2 }, runs)

/-- The `AppState::ActivityBound` arm of `main.rs` `GameState::tick`
(lines 157–172): run the continuous systems, then decide the next state from
`check_player_activity` and `check_monster_delay` (running the response
systems exactly when the monster delay is due), then the end-of-frame pass. -/
def tick_activity_bound_arm (cont resp : List Nat → List Nat)
    (threshold delta response_delay : Nat) (e : Ecs) : Ecs × Nat :=
  let f1 := cont e.finished
  let (st, f2, runs) :=
    if check_player_activity e.player f1 then (AppState.InGame, f1, 0)
    else
      let (due, d) := check_monster_delay threshold delta response_delay
      if due then (AppState.activity_bound, resp f1, 1)
      else (AppState.ActivityBound d, f1, 0)
  ({ e with state := st, finished := run_eof_systems f2 }, runs)

/-- `main.rs` `GameState::tick`, restricted to the scheduler-visible state.
`cont` and `resp` are the effects of `run_continuous_systems` and
`run_response_systems` on the `FinishedActivity` storage; `input` is the
outcome of `manage_player_input`; `threshold`/`delta` feed
`check_monster_delay`.  The result is `none` for `InMenu` (that arm is
`todo!()`, i.e. a panic). -/
def tick (cont resp : List Nat → List Nat) (threshold delta : Nat)
    (input : PlayerResponse) (e : Ecs) : Option (Ecs × Nat) :=
  match e.state with
  | AppState.InMenu => none
  | AppState.InGame => some (tick_in_game_arm cont resp input e)
  | AppState.ActivityBound response_delay =>
      some (tick_activity_bound_arm cont resp threshold delta response_delay e)

/-- C1: a tick starting in `ActivityBound response_delay` goes to `InGame`
when the player's bound activity reports finished; otherwise, when the
accumulated delay exceeds the NPC response threshold, the response systems run
exactly once and the next state is `ActivityBound` with the delay reset to
zero; otherwise the response systems do not run and the next state is
`ActivityBound` with the elapsed time accumulated into the delay. -/
theorem activity_bound_tick_spec (cont resp : List Nat → List Nat)
    (threshold delta response_delay : Nat) (input : PlayerResponse) (e : Ecs)
    (hst : e.state = AppState.ActivityBound response_delay) :
    (check_player_activity e.player (cont e.finished) = true →
      ∃ r, tick cont resp threshold delta input e = some r ∧
        r.1.state = AppState.InGame ∧ r.2 = 0) ∧
    (check_player_activity e.player (cont e.finished) = false →
      threshold < response_delay →
      ∃ r, tick cont resp threshold delta input e = some r ∧
        r.1.state = AppState.ActivityBound 0 ∧ r.2 = 1) ∧
    (check_player_activity e.player (cont e.finished) = false →
      ¬ threshold < response_delay →
      ∃ r, tick cont resp threshold delta input e = some r ∧
        r.1.state = AppState.ActivityBound (response_delay + delta) ∧ r.2 = 0) := by
  have htick : tick cont resp threshold delta input e
      = some (tick_activity_bound_arm cont resp threshold delta response_delay e) := by
    unfold tick; rw [hst]
  refine ⟨fun hfin => ⟨_, htick, ?_⟩, fun hfin hdue => ⟨_, htick, ?_⟩,
    fun hfin hdue => ⟨_, htick, ?_⟩⟩
  · simp [tick_activity_bound_arm, hfin, run_eof_systems]
  · simp [tick_activity_bound_arm, hfin, check_monster_delay, hdue,
      AppState.activity_bound, run_eof_systems]
  · simp [tick_activity_bound_arm, hfin, check_monster_delay, hdue, run_eof_systems]

/-- Witness for C1: player entity 0 with its finished marker present (first
case), identity system effects. -/
theorem activity_bound_tick_spec_witness :
    ∃ r, tick id id 5 2 PlayerResponse.Waiting ⟨0, [0], AppState.ActivityBound 3⟩ = some r ∧
      r.1.state = AppState.InGame ∧ r.2 = 0 :=
  (activity_bound_tick_spec id id 5 2 3 PlayerResponse.Waiting
    ⟨0, [0], AppState.ActivityBound 3⟩ rfl).1 (by decide)

lemma tick_in_game_arm_finished (cont resp : List Nat → List Nat)
    (input : PlayerResponse) (e : Ecs) :
    (tick_in_game_arm cont resp input e).1.finished = [] := by
  cases input <;> rfl

lemma tick_activity_bound_arm_finished (cont resp : List Nat → List Nat)
    (threshold delta response_delay : Nat) (e : Ecs) :
    (tick_activity_bound_arm cont resp threshold delta response_delay e).1.finished = [] := by
  unfold tick_activity_bound_arm check_monster_delay
  by_cases hp : check_player_activity e.player (cont e.finished) <;>
    by_cases hd : threshold < response_delay <;>
    simp [hp, hd, run_eof_systems]

/-- C4: at the end of every tick processed in state `InGame` or
`ActivityBound`, the `FinishedActivity` storage is empty — the end-of-frame
pass clears it unconditionally after the scheduler has made its state
decision, regardless of whether any system read the markers that tick. -/
theorem tick_clears_finished_activity (cont resp : List Nat → List Nat)
    (threshold delta : Nat) (input : PlayerResponse) (e : Ecs) (r : Ecs × Nat)
    (h : tick cont resp threshold delta input e = some r) :
    r.1.finished = [] := by
  unfold tick at h
  cases hst : e.state <;> rw [hst] at h
  · exact absurd h (by simp)
  · exact Option.some.inj h ▸ tick_in_game_arm_finished cont resp input e
  · exact Option.some.inj h ▸
      tick_activity_bound_arm_finished cont resp threshold delta _ e

/-- Witness for C4 at a concrete `InGame` tick with a stale marker. -/
theorem tick_clears_finished_activity_witness :
    (tick_in_game_arm id id PlayerResponse.TurnAdvance ⟨0, [4, 7], AppState.InGame⟩).1.finished
      = [] :=
  tick_clears_finished_activity id id 5 2 PlayerResponse.TurnAdvance
    ⟨0, [4, 7], AppState.InGame⟩ _ rfl

/-! ## System execution order within a tick (`main.rs` lines 59–107, 136–172)

`run_now` calls are strictly sequential (single-threaded), so each tick is a
trace: the list of systems in the order they execute. -/

/-- The systems invoked by `State::run_continuous_systems`,
`State::run_response_systems` and `State::run_eof_systems`. -/
inductive SystemName where
  | IndexReset : SystemName
  | IndexBlockedTiles : SystemName
  | IndexBreakableTiles : SystemName
  | IndexFishableTiles : SystemName
  | SetupFishingActions : SystemName
  | WaitingForFishSystem : SystemName
  | CatchFishSystem : SystemName
  | TileDestructionSystem : SystemName
  | DamageSystem : SystemName
  | TileAnimationSpawner : SystemName
  | TileAnimationCleanUpSystem : SystemName
  | RemoveDeadTiles : SystemName
  | RandomMonsterMovementSystem : SystemName
  | ClearFinishedActivities : SystemName
deriving DecidableEq, Repr

/-- `main.rs` `State::run_response_systems` (lines 60–65). -/
def run_response_systems_trace : List SystemName :=
  [SystemName.RandomMonsterMovementSystem]

/-- `main.rs` `State::run_continuous_systems` (lines 67–102), in source
order. -/
def run_continuous_systems_trace : List SystemName :=
  [SystemName.IndexReset, SystemName.IndexBlockedTiles,
   SystemName.IndexBreakableTiles, SystemName.IndexFishableTiles,
   SystemName.SetupFishingActions, SystemName.WaitingForFishSystem,
   SystemName.CatchFishSystem,
   SystemName.TileDestructionSystem, SystemName.DamageSystem,
   SystemName.TileAnimationSpawner, SystemName.TileAnimationCleanUpSystem,
   SystemName.RemoveDeadTiles]

/-- `main.rs` `State::run_eof_systems` (lines 104–107): the
`FinishedActivity` storage clear. -/
def run_eof_systems_trace : List SystemName :=
  [SystemName.ClearFinishedActivities]

/-- The trace of a tick spent in `AppState::InGame` (lines 140–156): response
systems run first exactly on `TurnAdvance`, then continuous, then
end-of-frame. -/
def in_game_tick_trace (turn_advance : Bool) : List SystemName :=
  (if turn_advance then run_response_systems_trace else []) ++
    run_continuous_systems_trace ++ run_eof_systems_trace

/-- The trace of a tick spent in `AppState::ActivityBound` (lines 157–172):
continuous systems first, response systems exactly when the player is not
finished and the monster delay is due, then end-of-frame. -/
def activity_bound_tick_trace (player_finished monster_due : Bool) : List SystemName :=
  run_continuous_systems_trace ++
    (if player_finished then [] else if monster_due then run_response_systems_trace else []) ++
    run_eof_systems_trace

/-- The four spatial-index rebuild systems of the claim. -/
def indexing_systems : List SystemName :=
  [SystemName.IndexReset, SystemName.IndexBlockedTiles,
   SystemName.IndexBreakableTiles, SystemName.IndexFishableTiles]

/-- The activity-resolution systems of the claim: fishing setup/waiting/catch,
tile destruction, damage. -/
def resolution_systems : List SystemName :=
  [SystemName.SetupFishingActions, SystemName.WaitingForFishSystem,
   SystemName.CatchFishSystem, SystemName.TileDestructionSystem,
   SystemName.DamageSystem]

/-- A trace schedules every indexing system strictly before every
activity-resolution system, and every one of those strictly before the
end-of-frame signal clearing, with all of them present. -/
def index_then_resolution_then_eof (l : List SystemName) : Bool :=
  (indexing_systems.all fun i =>
    l.contains i && (resolution_systems.all fun r =>
      l.indexOf i < l.indexOf r)) &&
  (resolution_systems.all fun r =>
    l.contains r && l.indexOf r < l.indexOf SystemName.ClearFinishedActivities) &&
  l.contains SystemName.ClearFinishedActivities

/-- C3: within every tick (both `InGame` and `ActivityBound` arms, whatever
the player/monster outcomes), the four spatial-index rebuild systems complete
before any activity-resolution system executes, and all of those complete
before the end-of-frame signal clearing. -/
theorem spatial_index_before_resolution_before_eof :
    ∀ turn_advance player_finished monster_due : Bool,
      index_then_resolution_then_eof (in_game_tick_trace turn_advance) = true ∧
      index_then_resolution_then_eof
        (activity_bound_tick_trace player_finished monster_due) = true := by
  decide

/-! ## Mining / tile destruction (`components.rs` lines 246–309, spec §4.3) -/

/-- `components.rs` `ToolType`. -/
inductive ToolType where
  | Hand : ToolType
  | Pickaxe : ToolType
  | Axe : ToolType
  | Shovel : ToolType
deriving DecidableEq, Repr

/-- `components.rs` `Breakable { by: ToolType }` (`by` is a Lean keyword, so
the field is `by_tool`): the tool type required to break the tile. -/
structure Breakable where
  by_tool : ToolType
deriving DecidableEq, Repr

/-- `components.rs` `Breakable::new`. -/
def Breakable.new (by_tool : ToolType) : Breakable :=
  { by_tool := by_tool }

/-- `components.rs` `impl FromStr for Breakable` (`Err(())` is `none`). -/
def Breakable.from_str (input : String) : Option Breakable :=
  match input with
  | "Hand" => some (Breakable.new ToolType.Hand)
  | "Axe" => some (Breakable.new ToolType.Axe)
  | "Pickaxe" => some (Breakable.new ToolType.Pickaxe)
  | "Shovel" => some (Breakable.new ToolType.Shovel)
  | _ => none

/-- The state of a break target the destruction system may touch: its
durability (`HealthStats`) and its entry in this turn's breakable map (`none`
when the tile is not currently destructible). -/
structure BreakTarget where
  health : HealthStats
  breakable : Option Breakable
deriving DecidableEq, Repr

/-- Modelled from the spec: `TileDestructionSystem` lives in `src/mining.rs`,
which is absent from the snapshot.  Per spec §4.3: if the acting entity's tool
matches the required tool type, apply accumulating damage (the actor's
strength) to the target's durability, and when durability reaches zero remove
the breakable designation; "if the tool does not match, the action is rejected
(no error raised to the engine; it is a no-op for that turn)" — hence the
total return type.  A target absent from the breakable map is likewise left
untouched. -/
def resolve_break_action (actor_tool : ToolType) (strength : Nat)
    (target : BreakTarget) : BreakTarget :=
  match target.breakable with
  | none => target
  | some b =>
      if b.by_tool = actor_tool then
        let hp' := target.health.hp - strength
        if hp' = 0 then
          { health := { target.health with hp := 0 }, breakable := none }
        else
          { target with health := { target.health with hp := hp' } }
      else
        target

/-- C5: a break intent whose target's required tool type does not match the
acting entity's tool changes neither the target's durability nor its
membership in the breakable map — a no-op, with no error raised (the resolver
is total). -/
theorem break_wrong_tool_noop (actor_tool : ToolType) (strength : Nat)
    (target : BreakTarget) (b : Breakable) (hb : target.breakable = some b)
    (hne : b.by_tool ≠ actor_tool) :
    resolve_break_action actor_tool strength target = target := by
  unfold resolve_break_action
  rw [hb]
  simp [hne]

/-- Witness for C5: a tile breakable by Axe attacked with a Pickaxe at
strength 1 stays exactly as it was (spec §8's end-to-end example). -/
theorem break_wrong_tool_noop_witness :
    resolve_break_action ToolType.Pickaxe 1
        ⟨HealthStats.new 5 0, some (Breakable.new ToolType.Axe)⟩
      = ⟨HealthStats.new 5 0, some (Breakable.new ToolType.Axe)⟩ :=
  break_wrong_tool_noop ToolType.Pickaxe 1
    ⟨HealthStats.new 5 0, some (Breakable.new ToolType.Axe)⟩
    (Breakable.new ToolType.Axe) rfl (by decide)

/-! ## Being construction (`data_read/beings.rs`) -/

/-- `components.rs` `Renderable`, reduced to the fields `build_being` sets
(`ColorPair` is kept as the fg colour; `default_bg` pairs it with a clear
background, which rendering alone consumes). -/
structure Renderable where
  fg : Nat × Nat × Nat
  atlas_index : Nat
  z_priority : Nat
deriving DecidableEq, Repr

/-- `components.rs` `Renderable::default_bg(atlas_index, fg, z_priority)`. -/
def Renderable.default_bg (atlas_index : Nat) (fg : Nat × Nat × Nat)
    (z_priority : Nat) : Renderable :=
  { fg := fg, atlas_index := atlas_index, z_priority := z_priority }

/-- Modelled from the spec: `BEING_Z` lives in `src/z_order.rs`, which is
absent from the snapshot; it is the z layer beings are drawn on.  Its concrete
value is irrelevant to every claim. -/
def BEING_Z : Nat := 2

/-- Modelled from the spec: the `data_read` `HealthStats` raw record (its
definition lives in `src/data_read/mod.rs`, absent from the snapshot);
`beings.rs` lines 103–108 read exactly the fields `max_hp` and `defense`. -/
structure RawHealthStats where
  max_hp : Nat
  defense : Nat
deriving DecidableEq, Repr

/-- `data_read/beings.rs` `Being` (the raw per-being definition record). -/
structure Being where
  identifier : Nat
  name : String
  monster : Option String
  is_blocking : Bool
  ai : Option String
  goals : Option (List String)
  atlas_index : Nat
  fg : Nat × Nat × Nat
  quips : Option (List String)
  strength : Option Nat
  health_stats : Option RawHealthStats
deriving DecidableEq, Repr

/-- `data_read/beings.rs` `BeingDatabase::get_by_name`: first entry with an
equal name. -/
def get_by_name (data : List Being) (name : String) : Option Being :=
  data.find? (fun i => i.name == name)

/-- An entity as assembled by `build_being`'s builder chain: the components it
may attach.  `goal_mover` holds the `GoalMoverAI` desires (`current` starts as
`None`). -/
structure BuiltEntity where
  name : String
  pos : Position
  renderable : Renderable
  monster : Bool
  blocking : Bool
  strength : Option Nat
  random_walker : Bool
  goal_mover : Option (List String)
  health_stats : Option HealthStats
deriving DecidableEq, Repr

/-- The observable outcome of `build_being`: `Ok(entity)` (the new entity's
arena index), `Err(EntityBuildError)`, or a `panic!` with its message. -/
inductive BuildOutcome where
  | ok (entity : Nat) : BuildOutcome
  | error : BuildOutcome
  | panicked (msg : String) : BuildOutcome
deriving DecidableEq, Repr

/-- `data_read/beings.rs` `build_being` (lines 52–111): looks the name up in
the being database (`Err(EntityBuildError)` when absent, world untouched),
then builds the entity from the raw record.  The builder attaches `Name`,
`Position` and `Renderable` unconditionally; `Monster`, `Blocking`,
`Strength`, the AI component and `HealthStats` per the record.  A record with
`ai == "goal"` but no goals hits the source's `panic!` (line 95).  The world
is a growable arena: a successful build appends the entity and returns its
index. -/
def build_being (edb : List Being) (name : String) (pos : Position)
    (world : List BuiltEntity) : BuildOutcome × List BuiltEntity :=
  match get_by_name edb name with
  | none => (BuildOutcome.error, world)
  | some raw =>
      let base : BuiltEntity :=
        { name := raw.name
          pos := pos
          renderable := Renderable.default_bg raw.atlas_index raw.fg BEING_Z
          monster := raw.monster.isSome
          blocking := raw.is_blocking
          strength := raw.strength
          random_walker := false
          goal_mover := none
          health_stats :=
            raw.health_stats.map (fun hs => HealthStats.new hs.max_hp hs.defense) }
      match raw.ai with
      | none => (BuildOutcome.ok world.length, world ++ [base])
      | some ai_type =>
          if ai_type = "random_walk" then
            (BuildOutcome.ok world.length, world ++ [{ base with random_walker := true }])
          else if ai_type = "goal" then
            match raw.goals with
            | some goals =>
                (BuildOutcome.ok world.length,
                  world ++ [{ base with goal_mover := some goals }])
            | none =>
                (BuildOutcome.panicked
                  (raw.name ++ " has Goal ai type but no defined goals"), world)
          else
            (BuildOutcome.ok world.length, world ++ [base])

lemma get?_append_singleton {α : Type} (l : List α) (a : α) :
    (l ++ [a]).get? l.length = some a := by
  induction l with
  | nil => rfl
  | cons x t ih => simp [ih]

/-- Every successful `build_being` appends exactly one entity whose
`HealthStats` component comes from the raw record through
`HealthStats::new`. -/
lemma build_being_ok_shape (edb : List Being) (name : String) (pos : Position)
    (world : List BuiltEntity) (i : Nat) (w' : List BuiltEntity)
    (h : build_being edb name pos world = (BuildOutcome.ok i, w')) :
    ∃ raw ent, get_by_name edb name = some raw ∧ i = world.length ∧
      w' = world ++ [ent] ∧
      ent.health_stats
        = raw.health_stats.map (fun hs => HealthStats.new hs.max_hp hs.defense) := by
  unfold build_being at h
  split at h
  · exact absurd h (by simp)
  next raw heq =>
    split at h
    · simp only [Prod.mk.injEq, BuildOutcome.ok.injEq] at h
      exact ⟨raw, _, heq, h.1.symm, h.2.symm, rfl⟩
    next ai_type hai =>
      split at h
      · simp only [Prod.mk.injEq, BuildOutcome.ok.injEq] at h
        exact ⟨raw, _, heq, h.1.symm, h.2.symm, rfl⟩
      · split at h
        · split at h
          · simp only [Prod.mk.injEq, BuildOutcome.ok.injEq] at h
            exact ⟨raw, _, heq, h.1.symm, h.2.symm, rfl⟩
          · exact absurd h (by simp)
        · simp only [Prod.mk.injEq, BuildOutcome.ok.injEq] at h
          exact ⟨raw, _, heq, h.1.symm, h.2.symm, rfl⟩

/-- C6 counterexample: a being whose record has Goal AI but no goals makes
`build_being` panic (source line 95) instead of returning `Ok` or
`EntityBuildError` — so the claim's "never aborts/panics" fails as stated. -/
def goal_no_goals_being : Being :=
  { identifier := 1, name := "ghost", monster := none, is_blocking := false,
    ai := some "goal", goals := none, atlas_index := 16, fg := (255, 255, 255),
    quips := none, strength := none, health_stats := none }

/-- C6: at the concrete input `goal_no_goals_being`, `build_being` hits the
`panic!`: its outcome is neither `Ok` with a new entity nor
`EntityBuildError`. -/
theorem build_being_panics_on_goal_without_goals :
    (build_being [goal_no_goals_being] "ghost" (Position.new 0 0) []).1
        = BuildOutcome.panicked "ghost has Goal ai type but no defined goals" ∧
    (build_being [goal_no_goals_being] "ghost" (Position.new 0 0) []).1
        ≠ BuildOutcome.error := by
  constructor
  · rfl
  · intro hcontra
    simp [build_being, get_by_name, goal_no_goals_being, List.find?] at hcontra

/-- Exhaustive case shape of `build_being`: a successful build appends exactly
one entity, a failed lookup returns the error with the world unchanged, and
the only panic is a looked-up record with Goal AI and no goals (world
unchanged). -/
lemma build_being_shape (edb : List Being) (name : String) (pos : Position)
    (world : List BuiltEntity) (r : BuildOutcome × List BuiltEntity)
    (h : build_being edb name pos world = r) :
    (∃ raw ent, get_by_name edb name = some raw ∧
      r = (BuildOutcome.ok world.length, world ++ [ent])) ∨
    (r = (BuildOutcome.error, world) ∧ get_by_name edb name = none) ∨
    (∃ raw, get_by_name edb name = some raw ∧ raw.ai = some "goal" ∧
      raw.goals = none ∧
      r = (BuildOutcome.panicked (raw.name ++ " has Goal ai type but no defined goals"),
        world)) := by
  unfold build_being at h
  split at h
  · next hnone => exact Or.inr (Or.inl ⟨h.symm, hnone⟩)
  · next raw heq =>
      split at h
      · exact Or.inl ⟨raw, _, heq, h.symm⟩
      · next ai_type hai =>
          split at h
          · exact Or.inl ⟨raw, _, heq, h.symm⟩
          · split at h
            · next hgl =>
                split at h
                · exact Or.inl ⟨raw, _, heq, h.symm⟩
                · next hgoals =>
                    exact Or.inr (Or.inr ⟨raw, heq, hgl ▸ hai, hgoals, h.symm⟩)
            · exact Or.inl ⟨raw, _, heq, h.symm⟩

/-- C6 (amended): for every database, name, position and world such that no
looked-up record combines Goal AI with absent goals, `build_being` either
returns `Ok` with exactly the newly created entity appended or returns
`EntityBuildError` with the world unchanged, and never panics; in particular a
name not present in the being database yields the error with the world
unchanged. -/
theorem build_being_ok_or_error (edb : List Being) (name : String)
    (pos : Position) (world : List BuiltEntity)
    (hwf : ∀ raw, get_by_name edb name = some raw →
      raw.ai = some "goal" → raw.goals ≠ none) :
    ((∃ ent, build_being edb name pos world
        = (BuildOutcome.ok world.length, world ++ [ent])) ∨
      build_being edb name pos world = (BuildOutcome.error, world)) ∧
    (get_by_name edb name = none →
      build_being edb name pos world = (BuildOutcome.error, world)) := by
  rcases build_being_shape edb name pos world _ rfl with
    ⟨raw, ent, hraw, hr⟩ | ⟨hr, hnone⟩ | ⟨raw, hraw, hai, hgoals, hr⟩
  · exact ⟨Or.inl ⟨ent, hr⟩,
      fun hnone => absurd hraw (by rw [hnone]; exact fun h => Option.noConfusion h)⟩
  · exact ⟨Or.inr hr, fun _ => hr⟩
  · exact absurd hgoals (hwf raw hraw hai)

/-- Witness for C6 (amended): an empty database rejects the name "slime" with
`EntityBuildError` and an unchanged world. -/
theorem build_being_ok_or_error_witness :
    ((∃ ent, build_being [] "slime" (Position.new 0 0) []
        = (BuildOutcome.ok 0, [] ++ [ent])) ∨
      build_being [] "slime" (Position.new 0 0) [] = (BuildOutcome.error, [])) ∧
    (get_by_name [] "slime" = none →
      build_being [] "slime" (Position.new 0 0) [] = (BuildOutcome.error, [])) :=
  build_being_ok_or_error [] "slime" (Position.new 0 0) []
    (fun raw hraw => absurd hraw (by simp [get_by_name]))

/-- C9: `HealthStats::new(max_hp, defense)` starts with current HP equal to
max HP and the given defense, and every being spawned through `build_being`
whose definition carries health stats starts at full health. -/
theorem spawned_at_full_health :
    (∀ max_hp defense : Nat,
      HealthStats.new max_hp defense
        = { hp := max_hp, max_hp := max_hp, defense := defense }) ∧
    (∀ (edb : List Being) (name : String) (pos : Position)
        (world w' : List BuiltEntity) (i : Nat) (ent : BuiltEntity)
        (hs : HealthStats),
      build_being edb name pos world = (BuildOutcome.ok i, w') →
      w'.get? i = some ent → ent.health_stats = some hs →
      hs.hp = hs.max_hp) := by
  refine ⟨fun _ _ => rfl, ?_⟩
  intro edb name pos world w' i ent hs h hget hhs
  obtain ⟨raw, ent0, -, hi, hw, hhealth⟩ := build_being_ok_shape edb name pos world i w' h
  subst hi hw
  rw [get?_append_singleton] at hget
  cases hget
  rw [hhealth] at hhs
  cases hraw : raw.health_stats with
  | none => rw [hraw] at hhs; exact absurd hhs (by simp)
  | some rhs =>
      rw [hraw] at hhs
      simp only [Option.map_some', Option.some.injEq] at hhs
      rw [← hhs]
      rfl

/-- Witness for C9: a database with one being carrying health stats (8, 1)
spawns an entity whose `HealthStats` has `hp = max_hp`. -/
def healthy_being : Being :=
  { identifier := 2, name := "rat", monster := some "true", is_blocking := true,
    ai := some "random_walk", goals := none, atlas_index := 3, fg := (200, 100, 50),
    quips := none, strength := some 1, health_stats := some ⟨8, 1⟩ }

theorem spawned_at_full_health_witness :
    (HealthStats.new 8 1).hp = (HealthStats.new 8 1).max_hp :=
  spawned_at_full_health.2 [healthy_being] "rat" (Position.new 1 1) [] _ 0
    { name := "rat", pos := Position.new 1 1,
      renderable := Renderable.default_bg 3 (200, 100, 50) BEING_Z,
      monster := true, blocking := true, strength := some 1,
      random_walker := true, goal_mover := none,
      health_stats := some (HealthStats.new 8 1) }
    (HealthStats.new 8 1) rfl rfl rfl

/-! ## Backpack (`components.rs` lines 328–378) -/

/-- Modelled from the spec: `ItemQty` lives in `src/items.rs`, which is absent
from the snapshot.  `components.rs` uses `ItemQty::new(qty)`, `.add(qty)` and
the field `.0`; it is the quantity newtype, with `add` accumulating into the
stored quantity. -/
structure ItemQty where
  val : Nat
deriving DecidableEq, Repr

def ItemQty.new (qty : Nat) : ItemQty := ⟨qty⟩

def ItemQty.add (q : ItemQty) (qty : Nat) : ItemQty := ⟨q.val + qty⟩

/-- `components.rs` `Backpack { contents: HashMap<ItemID, ItemQty> }`, with
the hash map modelled as an association list (`ItemID` is a numeric
identifier).  Map semantics only (lookup of the unique entry per key) are
relied on, so iteration order is immaterial. -/
structure Backpack where
  contents : List (Nat × ItemQty)
deriving DecidableEq, Repr

/-- `components.rs` `Backpack::empty`. -/
def Backpack.empty : Backpack := ⟨[]⟩

/-- `components.rs` `Backpack::len`. -/
def Backpack.len (b : Backpack) : Nat := b.contents.length

/-- `HashMap::get` on the association list: the entry for `item_id`, if
present. -/
def lookup_item (l : List (Nat × ItemQty)) (item_id : Nat) : Option ItemQty :=
  match l with
  | [] => none
  | (k, v) :: rest => if k = item_id then some v else lookup_item rest item_id

/-- The `entry` API used by `add_into_backpack`: `Occupied` mutates the stored
quantity in place via `ItemQty::add`; `Vacant` inserts `ItemQty::new(qty)`. -/
def entry_add (l : List (Nat × ItemQty)) (item_id qty : Nat) :
    List (Nat × ItemQty) :=
  match l with
  | [] => [(item_id, ItemQty.new qty)]
  | (k, v) :: rest =>
      if k = item_id then (k, v.add qty) :: rest
      else (k, v) :: entry_add rest item_id qty

/-- `components.rs` `Backpack::add_into_backpack`: adds `qty` to the entry for
`item_id` (inserting it if absent) and returns `true` unconditionally. -/
def Backpack.add_into_backpack (b : Backpack) (item_id qty : Nat) :
    Bool × Backpack :=
  (true, ⟨entry_add b.contents item_id qty⟩)

/-- `components.rs` `Backpack::contains`: `Some(o) => o.0 > 0`,
`None => false`. -/
def Backpack.contains (b : Backpack) (item_id : Nat) : Bool :=
  match lookup_item b.contents item_id with
  | some o => decide (0 < o.val)
  | none => false

/-- The stored quantity of `item_id` in a backpack, zero when absent. -/
def Backpack.qty_of (b : Backpack) (item_id : Nat) : Nat :=
  ((lookup_item b.contents item_id).map ItemQty.val).getD 0

lemma lookup_entry_add (l : List (Nat × ItemQty)) (item_id qty : Nat) :
    ((lookup_item (entry_add l item_id qty) item_id).map ItemQty.val).getD 0
      = ((lookup_item l item_id).map ItemQty.val).getD 0 + qty := by
  induction l with
  | nil => simp [entry_add, lookup_item, ItemQty.new]
  | cons hd tl ih =>
      obtain ⟨k, v⟩ := hd
      by_cases hk : k = item_id <;>
        simp [entry_add, lookup_item, hk, ItemQty.add, ih]

/-- C10: `add_into_backpack` always returns `true` and adds `qty` to the
stored quantity for the id (inserting it if absent); `contains` reports an id
exactly when its stored quantity is strictly positive — an id recorded with
quantity zero is not contained, and after adding `qty > 0` the backpack
contains the id. -/
theorem backpack_add_contains_spec :
    (∀ (b : Backpack) (item_id qty : Nat),
      (b.add_into_backpack item_id qty).1 = true) ∧
    (∀ (b : Backpack) (item_id qty : Nat),
      (b.add_into_backpack item_id qty).2.qty_of item_id = b.qty_of item_id + qty) ∧
    (∀ (b : Backpack) (item_id : Nat),
      b.contains item_id = decide (0 < b.qty_of item_id)) ∧
    (∀ (b : Backpack) (item_id qty : Nat), 0 < qty →
      (b.add_into_backpack item_id qty).2.contains item_id = true) := by
  have hcontains : ∀ (b : Backpack) (item_id : Nat),
      b.contains item_id = decide (0 < b.qty_of item_id) := by
    intro b item_id
    unfold Backpack.contains Backpack.qty_of
    cases lookup_item b.contents item_id <;> simp
  refine ⟨fun _ _ _ => rfl, fun b item_id qty => lookup_entry_add _ _ _,
    hcontains, fun b item_id qty hqty => ?_⟩
  rw [hcontains]
  have h2 : (b.add_into_backpack item_id qty).2.qty_of item_id
      = b.qty_of item_id + qty := lookup_entry_add b.contents item_id qty
  rw [h2]
  simpa using Or.inr hqty

/-- Witness for C10: adding 3 of item 7 to an empty backpack (and to one
recording item 7 with quantity zero) makes it contained; quantity zero alone
is reported as not contained. -/
theorem backpack_add_contains_spec_witness :
    ((Backpack.empty.add_into_backpack 7 3).1 = true) ∧
    ((Backpack.empty.add_into_backpack 7 3).2.qty_of 7 = Backpack.empty.qty_of 7 + 3) ∧
    (Backpack.contains ⟨[(7, ItemQty.new 0)]⟩ 7
      = decide (0 < Backpack.qty_of ⟨[(7, ItemQty.new 0)]⟩ 7)) ∧
    ((Backpack.empty.add_into_backpack 7 3).2.contains 7 = true) :=
  ⟨backpack_add_contains_spec.1 Backpack.empty 7 3,
    backpack_add_contains_spec.2.1 Backpack.empty 7 3,
    backpack_add_contains_spec.2.2.1 ⟨[(7, ItemQty.new 0)]⟩ 7,
    backpack_add_contains_spec.2.2.2 Backpack.empty 7 3 (by decide)⟩

end TileRpg
